import Mathlib

/-!
Verification development for the Stellar-Guilds coordination engine.

The definitions below are a shallow embedding of the contract sources:
`src/contract/src/multisig/{types,storage,policy,registrar,signing}.rs` and
`src/contract/src/governance/execution.rs`. Principals (Soroban addresses)
are represented by natural numbers, `soroban_sdk::Vec` by `List`, persistent
storage maps by functions `Nat → Option _`, and `u64`/`u32` arithmetic by
`Nat` with an explicit modulus where the source can wrap. Fallible entry
points return their error code (the `u32` codes of the source) together with
the post-state, since some error paths of the source persist writes before
surfacing the error.
-/

/-- Modulus of Rust `u64` arithmetic (release builds wrap on overflow). -/
def U64MOD : Nat := 2 ^ 64

/-- From `multisig/types.rs`: `TIMEOUT_24H`. -/
def TIMEOUT_24H : Nat := 86400

/-- From `multisig/types.rs`: `TIMEOUT_48H`. -/
def TIMEOUT_48H : Nat := 172800

/-- From `multisig/types.rs`: `DEFAULT_TIMEOUT = TIMEOUT_48H`. -/
def DEFAULT_TIMEOUT : Nat := TIMEOUT_48H

/-- Rust `x.clamp(lo, hi)` for unsigned integers with `lo ≤ hi`. -/
def clampNat (x lo hi : Nat) : Nat := min (max x lo) hi

/-- From `multisig/types.rs`: `AccountStatus`. -/
inductive AccountStatus where
  | Active
  | Frozen
deriving DecidableEq, Repr

/-- From `multisig/types.rs`: `OperationStatus`. -/
inductive OperationStatus where
  | Pending
  | Executed
  | Expired
  | Cancelled
deriving DecidableEq, Repr

/-- From `multisig/types.rs`: `OperationType`. -/
inductive OperationType where
  | TreasuryWithdrawal
  | GovernanceUpdate
  | GuildConfigChange
  | EmergencyAction
deriving DecidableEq, Repr

/-- From `multisig/types.rs`: `MultiSigAccount`. Addresses are `Nat`. -/
structure MultiSigAccount where
  id : Nat
  owner : Nat
  signers : List Nat
  threshold : Nat
  status : AccountStatus
  nonce : Nat
deriving DecidableEq, Repr

/-- From `multisig/types.rs`: `MultiSigOperation`. -/
structure MultiSigOperation where
  id : Nat
  account_id : Nat
  op_type : OperationType
  description : String
  proposer : Nat
  signatures : List Nat
  nonce : Nat
  created_at : Nat
  expires_at : Nat
  status : OperationStatus
deriving DecidableEq, Repr

/-- From `multisig/types.rs`: `OperationPolicy`. -/
structure OperationPolicy where
  min_signatures : Nat
  require_all_signers : Bool
  timeout_seconds : Nat
  require_owner_signature : Bool
deriving DecidableEq, Repr

/-- The multisig slice of contract storage (`multisig/storage.rs`): persistent
maps keyed by the typed `DataKey` enum plus the two instance counters. -/
structure MsState where
  accounts : Nat → Option MultiSigAccount
  operations : Nat → Option MultiSigOperation
  policies : Nat → OperationType → Option OperationPolicy
  account_counter : Nat
  operation_counter : Nat

/-- From `multisig/storage.rs`: `store_account`. -/
def store_account (s : MsState) (id : Nat) (a : MultiSigAccount) : MsState :=
  { s with accounts := fun i => if i = id then some a else s.accounts i }

/-- From `multisig/storage.rs`: `store_operation`. -/
def store_operation (s : MsState) (id : Nat) (op : MultiSigOperation) : MsState :=
  { s with operations := fun i => if i = id then some op else s.operations i }

/-- From `multisig/storage.rs`: `store_policy`. -/
def store_policy (s : MsState) (account_id : Nat) (t : OperationType)
    (p : OperationPolicy) : MsState :=
  { s with policies := fun i u =>
      if i = account_id ∧ u = t then some p else s.policies i u }

/-- From `multisig/policy.rs`: `ms_get_operation_policy` — the stored policy,
or the default `{1, false, DEFAULT_TIMEOUT, false}` when none is recorded. -/
def ms_get_operation_policy (s : MsState) (account_id : Nat)
    (t : OperationType) : OperationPolicy :=
  (s.policies account_id t).getD
    ⟨1, false, DEFAULT_TIMEOUT, false⟩

/-- From `multisig/registrar.rs`: `ms_register_account`. Returns the new
account id or error code 1, with the post-state. -/
def ms_register_account (s : MsState) (owner : Nat) (signers : List Nat)
    (threshold : Nat) : Except Nat Nat × MsState :=
  let signers1 := if owner ∈ signers then signers else signers ++ [owner]
  let min_safe_threshold := signers1.length / 2 + 1
  if threshold < min_safe_threshold ∨ threshold > signers1.length then
    (.error 1, s)
  else
    let account_id := s.account_counter + 1
    let s1 := { s with account_counter := account_id }
    let account : MultiSigAccount :=
      ⟨account_id, owner, signers1, threshold, .Active, 0⟩
    (.ok account_id, store_account s1 account_id account)

/-- From `multisig/registrar.rs`: `ms_freeze_account`. -/
def ms_freeze_account (s : MsState) (account_id caller : Nat) :
    Except Nat Unit × MsState :=
  match s.accounts account_id with
  | none => (.error 2, s)
  | some account =>
    if account.owner ≠ caller then (.error 3, s)
    else (.ok (), store_account s account_id { account with status := .Frozen })

/-- From `multisig/registrar.rs`: `ms_unfreeze_account`. -/
def ms_unfreeze_account (s : MsState) (account_id caller : Nat) :
    Except Nat Unit × MsState :=
  match s.accounts account_id with
  | none => (.error 2, s)
  | some account =>
    if account.owner ≠ caller then (.error 3, s)
    else (.ok (), store_account s account_id { account with status := .Active })

/-- From `multisig/registrar.rs`: `ms_add_signer`. The signer is appended
only when absent; no threshold re-validation is performed. -/
def ms_add_signer (s : MsState) (account_id new_signer caller : Nat) :
    Except Nat Unit × MsState :=
  match s.accounts account_id with
  | none => (.error 2, s)
  | some account =>
    if account.owner ≠ caller then (.error 3, s)
    else if new_signer ∉ account.signers then
      (.ok (), store_account s account_id
        { account with signers := account.signers ++ [new_signer] })
    else (.ok (), s)

/-- From `multisig/registrar.rs`: `ms_remove_signer`. When the signer is not
present the call succeeds without touching the account. -/
def ms_remove_signer (s : MsState) (account_id signer caller new_threshold : Nat) :
    Except Nat Unit × MsState :=
  match s.accounts account_id with
  | none => (.error 2, s)
  | some account =>
    if account.owner ≠ caller ∨ account.owner = signer then (.error 3, s)
    else
      match account.signers.indexOf? signer with
      | some idx =>
        let signers1 := account.signers.eraseIdx idx
        if signers1.isEmpty then (.error 1, s)
        else
          let min_safe := signers1.length / 2 + 1
          if new_threshold < min_safe ∨ new_threshold > signers1.length then
            (.error 1, s)
          else
            (.ok (), store_account s account_id
              { account with signers := signers1, threshold := new_threshold,
                             nonce := (account.nonce + 1) % U64MOD })
      | none => (.ok (), s)

/-- From `multisig/registrar.rs`: `ms_rotate_signer`. `signers.get(idx)` after
the `set` is total in the source (`idx` is in bounds); it is rendered with a
default that is never reached. -/
def ms_rotate_signer (s : MsState) (account_id old_signer new_signer caller : Nat) :
    Except Nat Unit × MsState :=
  match s.accounts account_id with
  | none => (.error 2, s)
  | some account =>
    if account.owner ≠ caller then (.error 3, s)
    else if new_signer ∈ account.signers then (.error 1, s)
    else
      match account.signers.indexOf? old_signer with
      | some idx =>
        let signers1 := account.signers.set idx new_signer
        let owner1 :=
          if account.owner = old_signer then signers1.getD idx account.owner
          else account.owner
        (.ok (), store_account s account_id
          { account with signers := signers1, owner := owner1,
                         nonce := (account.nonce + 1) % U64MOD })
      | none => (.error 4, s)

/-- From `multisig/registrar.rs`: `ms_update_threshold`. -/
def ms_update_threshold (s : MsState) (account_id new_threshold caller : Nat) :
    Except Nat Unit × MsState :=
  match s.accounts account_id with
  | none => (.error 2, s)
  | some account =>
    if account.owner ≠ caller then (.error 3, s)
    else
      let min_safe := account.signers.length / 2 + 1
      if new_threshold < min_safe ∨ new_threshold > account.signers.length then
        (.error 1, s)
      else
        (.ok (), store_account s account_id
          { account with threshold := new_threshold,
                         nonce := (account.nonce + 1) % U64MOD })

/-- From `multisig/signing.rs`: `ms_propose_operation`. `now` is the ledger
timestamp captured at invocation start. -/
def ms_propose_operation (s : MsState) (account_id : Nat) (op_type : OperationType)
    (description : String) (proposer now : Nat) : Except Nat Nat × MsState :=
  match s.accounts account_id with
  | none => (.error 1, s)
  | some account =>
    if proposer ∉ account.signers ∨ account.status = .Frozen then
      (.error 2, s)
    else
      let policy := ms_get_operation_policy s account_id op_type
      let op_id := s.operation_counter + 1
      let s1 := { s with operation_counter := op_id }
      let timeout := clampNat policy.timeout_seconds TIMEOUT_24H TIMEOUT_48H
      let nonce := account.nonce
      let account1 := { account with nonce := (account.nonce + 1) % U64MOD }
      let s2 := store_account s1 account.id account1
      let operation : MultiSigOperation :=
        ⟨op_id, account_id, op_type, description, proposer, [proposer], nonce,
         now, (now + timeout) % U64MOD, .Pending⟩
      (.ok op_id, store_operation s2 op_id operation)

/-- From `multisig/signing.rs`: `ms_sign_operation`. Expiry discovered here is
persisted before error 5 is returned. -/
def ms_sign_operation (s : MsState) (op_id signer now : Nat) :
    Except Nat Nat × MsState :=
  match s.operations op_id with
  | none => (.error 3, s)
  | some operation =>
    match s.accounts operation.account_id with
    | none => (.error 1, s)
    | some account =>
      if operation.status ≠ .Pending then (.error 4, s)
      else if now > operation.expires_at then
        (.error 5, store_operation s op_id { operation with status := .Expired })
      else if signer ∉ account.signers ∨
          signer ∈ operation.signatures then (.error 6, s)
      else
        let operation1 :=
          { operation with signatures := operation.signatures ++ [signer] }
        (.ok operation1.signatures.length, store_operation s op_id operation1)

/-- The `required_sigs` computation of `ms_execute_operation`
(`signing.rs` lines 81-87). -/
def required_signatures (policy : OperationPolicy) (account : MultiSigAccount) : Nat :=
  if policy.require_all_signers then account.signers.length
  else if policy.min_signatures > 0 then policy.min_signatures
  else account.threshold

/-- From `multisig/signing.rs`: `ms_execute_operation`. -/
def ms_execute_operation (s : MsState) (op_id now : Nat) :
    Except Nat Unit × MsState :=
  match s.operations op_id with
  | none => (.error 3, s)
  | some operation =>
    match s.accounts operation.account_id with
    | none => (.error 1, s)
    | some account =>
      if operation.status ≠ .Pending then (.error 4, s)
      else if now > operation.expires_at then
        (.error 5, store_operation s op_id { operation with status := .Expired })
      else
        let policy := ms_get_operation_policy s account.id operation.op_type
        let required_sigs := required_signatures policy account
        if operation.signatures.length < required_sigs then (.error 7, s)
        else if policy.require_owner_signature ∧
            account.owner ∉ operation.signatures then (.error 8, s)
        else
          (.ok (), store_operation s op_id { operation with status := .Executed })

/-- From `multisig/signing.rs`: `ms_cancel_operation`. -/
def ms_cancel_operation (s : MsState) (op_id caller : Nat) :
    Except Nat Unit × MsState :=
  match s.operations op_id with
  | none => (.error 3, s)
  | some op =>
    match s.accounts op.account_id with
    | none => (.error 1, s)
    | some account =>
      if op.proposer ≠ caller ∧ account.owner ≠ caller then (.error 2, s)
      else if op.status ≠ .Pending then (.error 4, s)
      else (.ok (), store_operation s op_id { op with status := .Cancelled })

/-- From `multisig/signing.rs`: `ms_check_and_expire`. -/
def ms_check_and_expire (s : MsState) (op_id now : Nat) :
    Except Nat Bool × MsState :=
  match s.operations op_id with
  | none => (.error 3, s)
  | some op =>
    if op.status = .Pending ∧ now > op.expires_at then
      (.ok true, store_operation s op_id { op with status := .Expired })
    else (.ok false, s)

/-- From `multisig/signing.rs`: `ms_emergency_expire_operation` — owner-gated,
sets the status to `Expired` without inspecting the current status. -/
def ms_emergency_expire_operation (s : MsState) (op_id owner : Nat) :
    Except Nat Unit × MsState :=
  match s.operations op_id with
  | none => (.error 3, s)
  | some operation =>
    match s.accounts operation.account_id with
    | none => (.error 1, s)
    | some account =>
      if account.owner ≠ owner then (.error 2, s)
      else
        (.ok (), store_operation s op_id { operation with status := .Expired })

/-- From `multisig/signing.rs`: `ms_emergency_extend_timeout` — owner-gated,
rebases `expires_at` from `now` without inspecting the current status. -/
def ms_emergency_extend_timeout (s : MsState) (op_id new_timeout_seconds owner now : Nat) :
    Except Nat Unit × MsState :=
  match s.operations op_id with
  | none => (.error 3, s)
  | some op =>
    match s.accounts op.account_id with
    | none => (.error 1, s)
    | some account =>
      if account.owner ≠ owner then (.error 2, s)
      else
        let timeout := clampNat new_timeout_seconds TIMEOUT_24H TIMEOUT_48H
        (.ok (), store_operation s op_id
          { op with expires_at := (now + timeout) % U64MOD })

/-- From `multisig/signing.rs`: `ms_require_executed_operation`. Pure check;
no state is written. -/
def ms_require_executed_operation (s : MsState) (op_id : Nat)
    (expected_type : OperationType) : Except Nat Unit :=
  match s.operations op_id with
  | none => .error 3
  | some op =>
    if op.status ≠ .Executed then .error 4
    else if op.op_type ≠ expected_type then .error 9
    else .ok ()

/-- One iteration of the scan in `ms_sweep_expired_operations`. -/
def sweepStep (account_id now : Nat) (acc : Nat × MsState) (op_id : Nat) :
    Nat × MsState :=
  match acc.2.operations op_id with
  | some op =>
    if op.account_id = account_id ∧ op.status = .Pending ∧ now > op.expires_at then
      (acc.1 + 1, store_operation acc.2 op_id { op with status := .Expired })
    else acc
  | none => acc

/-- From `multisig/signing.rs`: `ms_sweep_expired_operations` — iterates the
dense id range `1..=OperationCounter`. -/
def ms_sweep_expired_operations (s : MsState) (account_id now : Nat) :
    Nat × MsState :=
  (List.range' 1 s.operation_counter).foldl (sweepStep account_id now) (0, s)

/-! ### Governance execution (`governance/execution.rs`)

The governance support modules `governance/{types,proposals,storage,voting}.rs`
are declared by `governance/mod.rs` but absent from the sources; their data
model follows §3 of the specification and their storage §4.1. The finalizer
`finalize_proposal` (voting.rs) is likewise absent, so `execute_proposal` is
parameterized over it: every theorem below holds for an arbitrary finalizer.
-/

/-- Modelled from the spec: the role lattice of §3 (`guild/types.rs` is absent
from the sources). Only carried as payload data here. -/
inductive Role where
  | Contributor
  | Member
  | Admin
  | Owner
deriving DecidableEq, Repr

/-- Modelled from the spec: proposal status (§3): `Active → Passed | Rejected |
Cancelled`, then `Passed → Executed | Expired`. -/
inductive ProposalStatus where
  | Active
  | Passed
  | Rejected
  | Cancelled
  | Executed
  | Expired
deriving DecidableEq, Repr

/-- Modelled from the spec: proposal type (§3). -/
inductive ProposalType where
  | GeneralDecision
  | TreasurySpend
  | RuleChange
  | AddMember
  | RemoveMember
deriving DecidableEq, Repr

/-- Modelled from the spec: the tagged execution payload (§3), with the
variant shapes used by `governance/tests.rs`. -/
inductive ExecutionPayload where
  | GeneralDecision (meta : String)
  | TreasurySpend
  | RuleChange
  | AddMember (address : Nat) (role : Role)
  | RemoveMember (address : Nat)
deriving DecidableEq, Repr

/-- Modelled from the spec: the `Proposal` record of §3 (`governance/types.rs`
is absent from the sources). -/
structure Proposal where
  id : Nat
  guild_id : Nat
  proposer : Nat
  proposal_type : ProposalType
  title : String
  description : String
  execution_payload : ExecutionPayload
  created_at : Nat
  voting_end : Nat
  status : ProposalStatus
  passed_at : Option Nat
  executed_at : Option Nat
  votes_for : Nat
  votes_against : Nat
  votes_abstain : Nat
deriving DecidableEq, Repr

/-- The governance slice of contract storage plus the event log; the
`proposal_executed` event carries `(proposal_id, success)`. -/
structure GovState where
  proposals : Nat → Option Proposal
  events : List (Nat × Bool)

/-- Modelled from the spec: `store_proposal` (`governance/storage.rs` is
absent) writes the proposal under its own id (§4.1 key `Proposal(id)`). -/
def store_proposal (s : GovState) (p : Proposal) : GovState :=
  { s with proposals := fun i => if i = p.id then some p else s.proposals i }

/-- Outcome of `execute_proposal`: the returned `bool`, or a `panic!` with its
message. Panics after a storage write carry the written state (§7 of the spec
asserts expiry discoveries are persisted before the error surfaces). -/
inductive GovResult where
  | success (b : Bool)
  | panicked (msg : String)
deriving DecidableEq, Repr

/-- From `governance/execution.rs`: `EXECUTION_DEADLINE_SECONDS = 3·86400`. -/
def EXECUTION_DEADLINE_SECONDS : Nat := 3 * 24 * 60 * 60

/-- The payload dispatch of `execute_proposal` (`execution.rs` lines 37-48):
only the TreasurySpend, RuleChange and GeneralDecision pairs yield `true`;
every other combination — including matching AddMember/RemoveMember pairs —
falls to the `_ => false` arm. -/
def payloadSuccess (p : Proposal) : Bool :=
  match p.proposal_type, p.execution_payload with
  | .TreasurySpend, .TreasurySpend => true
  | .RuleChange, .RuleChange => true
  | .GeneralDecision, .GeneralDecision _ => true
  | _, _ => false

/-- Tail of `execute_proposal` for a proposal that survived the status and
window checks: compute `success`, store `Executed` on success, emit the
`proposal_executed` event, return `success`. -/
def executeDispatch (s : GovState) (p : Proposal) (proposal_id now : Nat) :
    GovResult × GovState :=
  let success := payloadSuccess p
  let s1 :=
    if success then
      store_proposal s { p with status := .Executed, executed_at := some now }
    else s
  (.success success, { s1 with events := s1.events ++ [(proposal_id, success)] })

/-- Window check of `execute_proposal` (`execution.rs` lines 29-35) followed
by the dispatch; the `Expired` write is performed before the panic. -/
def executePassed (s : GovState) (p : Proposal) (proposal_id now : Nat) :
    GovResult × GovState :=
  match p.passed_at with
  | some passed_at =>
    if now > (passed_at + EXECUTION_DEADLINE_SECONDS) % U64MOD then
      (.panicked "execution window expired",
       store_proposal s { p with status := .Expired })
    else executeDispatch s p proposal_id now
  | none => executeDispatch s p proposal_id now

/-- From `governance/execution.rs`: `execute_proposal`. `finalize` stands for
`crate::governance::voting::finalize_proposal`, which is absent from the
sources; `load_proposal` panics when the id is unknown. -/
def execute_proposal (finalize : GovState → Nat → GovState) (s : GovState)
    (proposal_id now : Nat) : GovResult × GovState :=
  match s.proposals proposal_id with
  | none => (.panicked "proposal not found", s)
  | some p0 =>
    if p0.status = .Active ∧ now ≥ p0.voting_end then
      let s1 := finalize s proposal_id
      match s1.proposals proposal_id with
      | none => (.panicked "proposal not found", s1)
      | some p1 =>
        if p1.status ≠ .Passed then (.panicked "proposal not passed", s1)
        else executePassed s1 p1 proposal_id now
    else
      if p0.status ≠ .Passed then
        (.panicked "only passed proposals can be executed", s)
      else executePassed s p0 proposal_id now

/-! ### Shared infrastructure for the theorems -/

instance {e a : Type} [DecidableEq e] [DecidableEq a] : DecidableEq (Except e a) := fun x y =>
  match x, y with
  | .ok u, .ok v => if h : u = v then .isTrue (by rw [h]) else .isFalse (by simp [h])
  | .ok _, .error _ => .isFalse (by simp)
  | .error _, .ok _ => .isFalse (by simp)
  | .error u, .error v => if h : u = v then .isTrue (by rw [h]) else .isFalse (by simp [h])

/-- The empty contract state: no accounts, no operations, no policies. -/
def emptyMs : MsState := ⟨fun _ => none, fun _ => none, fun _ _ => none, 0, 0⟩

/-- The THRESHOLD-SAFE ∧ SIGNERS-NONEMPTY invariant of §3 of the spec:
`threshold ≥ ⌊|signers|/2⌋+1`, `threshold ≤ |signers|`, signers non-empty. -/
def thresholdSafe (a : MultiSigAccount) : Prop :=
  a.signers.length / 2 + 1 ≤ a.threshold ∧ a.threshold ≤ a.signers.length ∧
    a.signers ≠ []

instance : DecidablePred thresholdSafe := fun a => by
  unfold thresholdSafe; infer_instance

/-- C5. `ms_execute_operation` transitions an operation to `Executed` exactly
when it is Pending, unexpired, carries at least `required_signatures policy
account` signatures, and contains the owner's signature whenever the policy
demands it; on success the stored operation has status `Executed`. -/
theorem C5_execute_operation_iff (s : MsState) (op_id now : Nat)
    (op : MultiSigOperation) (account : MultiSigAccount)
    (h1 : s.operations op_id = some op)
    (h2 : s.accounts op.account_id = some account) :
    ((ms_execute_operation s op_id now).1 = .ok () ↔
      (op.status = .Pending ∧ now ≤ op.expires_at ∧
       required_signatures (ms_get_operation_policy s account.id op.op_type)
         account ≤ op.signatures.length ∧
       ((ms_get_operation_policy s account.id op.op_type).require_owner_signature =
          true → account.owner ∈ op.signatures))) ∧
    ((ms_execute_operation s op_id now).1 = .ok () →
      (ms_execute_operation s op_id now).2.operations op_id =
        some { op with status := .Executed }) := by
  simp only [ms_execute_operation, h1, h2]
  split_ifs with h3 h4 h5 h6
  · simp [h3]
  · refine ⟨by simp only [false_iff]; rintro ⟨-, hle, -, -⟩; omega, by simp⟩
  · refine ⟨by simp only [false_iff]; rintro ⟨-, -, hreq, -⟩; omega, by simp⟩
  · refine ⟨by simp only [false_iff]; rintro ⟨-, -, -, hown⟩; exact h6.2 (hown h6.1),
      by simp⟩
  · refine ⟨⟨fun _ => ⟨not_ne_iff.mp h3, Nat.not_lt.mp h4, Nat.not_lt.mp h5,
      fun hro => by
        by_contra hn
        exact h6 ⟨hro, hn⟩⟩, fun _ => rfl⟩, fun _ => by simp [store_operation]⟩

/-- Witness for C5: a two-of-three account whose pending operation carries two
signatures executes, and the conditions of the iff hold at that input. -/
theorem C5_execute_operation_iff_witness :
    (let account : MultiSigAccount := ⟨1, 5, [5, 6, 7], 2, .Active, 1⟩
     let op : MultiSigOperation :=
       ⟨1, 1, .TreasuryWithdrawal, "w", 5, [5, 6], 0, 1000, 173800, .Pending⟩
     let s : MsState :=
       ⟨fun i => if i = 1 then some account else none,
        fun i => if i = 1 then some op else none, fun _ _ => none, 1, 1⟩
     (ms_execute_operation s 1 2000).1 = .ok () ∧
       (ms_execute_operation s 1 2000).2.operations 1 =
         some { op with status := .Executed }) := by
  have h := C5_execute_operation_iff
    (⟨fun i => if i = 1 then
        some ⟨1, 5, [5, 6, 7], 2, .Active, 1⟩ else none,
      fun i => if i = 1 then
        some ⟨1, 1, .TreasuryWithdrawal, "w", 5, [5, 6], 0, 1000, 173800, .Pending⟩
      else none, fun _ _ => none, 1, 1⟩ : MsState)
    1 2000 ⟨1, 1, .TreasuryWithdrawal, "w", 5, [5, 6], 0, 1000, 173800, .Pending⟩
    ⟨1, 5, [5, 6, 7], 2, .Active, 1⟩ (by decide) (by decide)
  exact ⟨h.1.mpr (by decide), h.2 (h.1.mpr (by decide))⟩

/-- C8. On a Pending operation past `expires_at`, both `ms_sign_operation` and
`ms_execute_operation` fail with error 5 and the `Pending → Expired` transition
is written to storage before the error returns, so any later read of the
operation sees `Expired`; on a live Pending operation, a signer of the account
who has not yet signed appends a signature and gets the new count back. -/
theorem C8_sign_execute_expiry_persist (s : MsState) (op_id signer now : Nat)
    (op : MultiSigOperation) (account : MultiSigAccount)
    (h1 : s.operations op_id = some op)
    (h2 : s.accounts op.account_id = some account)
    (hst : op.status = .Pending) :
    (now > op.expires_at →
      (ms_sign_operation s op_id signer now).1 = .error 5 ∧
      (ms_sign_operation s op_id signer now).2.operations op_id =
        some { op with status := .Expired } ∧
      (ms_execute_operation s op_id now).1 = .error 5 ∧
      (ms_execute_operation s op_id now).2.operations op_id =
        some { op with status := .Expired }) ∧
    (now ≤ op.expires_at → signer ∈ account.signers → signer ∉ op.signatures →
      (ms_sign_operation s op_id signer now).1 =
        .ok (op.signatures.length + 1) ∧
      (ms_sign_operation s op_id signer now).2.operations op_id =
        some { op with signatures := op.signatures ++ [signer] }) := by
  constructor
  · intro hexp
    simp only [ms_sign_operation, ms_execute_operation, h1, h2]
    rw [if_neg (by simp [hst]), if_pos hexp, if_neg (by simp [hst]), if_pos hexp]
    refine ⟨rfl, by simp [store_operation], rfl, by simp [store_operation]⟩
  · intro hle hin hnot
    simp only [ms_sign_operation, h1, h2]
    rw [if_neg (by simp [hst]), if_neg (Nat.not_lt.mpr hle),
      if_neg (by simp [hin, hnot])]
    exact ⟨by simp, by simp [store_operation]⟩

/-- Witness for C8: a concrete expired Pending operation is persisted as
Expired by `ms_sign_operation`, and a live one accepts a second signature. -/
theorem C8_sign_execute_expiry_persist_witness :
    (let account : MultiSigAccount := ⟨1, 5, [5, 6, 7], 2, .Active, 1⟩
     let op : MultiSigOperation :=
       ⟨1, 1, .TreasuryWithdrawal, "w", 5, [5], 0, 1000, 87400, .Pending⟩
     let s : MsState :=
       ⟨fun i => if i = 1 then some account else none,
        fun i => if i = 1 then some op else none, fun _ _ => none, 1, 1⟩
     ((ms_sign_operation s 1 6 90000).1 = .error 5 ∧
      (ms_sign_operation s 1 6 90000).2.operations 1 =
        some { op with status := .Expired }) ∧
     ((ms_sign_operation s 1 6 2000).1 = .ok 2 ∧
      (ms_sign_operation s 1 6 2000).2.operations 1 =
        some { op with signatures := [5, 6] })) := by
  have h := C8_sign_execute_expiry_persist
    (⟨fun i => if i = 1 then some ⟨1, 5, [5, 6, 7], 2, .Active, 1⟩ else none,
      fun i => if i = 1 then
        some ⟨1, 1, .TreasuryWithdrawal, "w", 5, [5], 0, 1000, 87400, .Pending⟩
      else none, fun _ _ => none, 1, 1⟩ : MsState)
    1 6 90000 ⟨1, 1, .TreasuryWithdrawal, "w", 5, [5], 0, 1000, 87400, .Pending⟩
    ⟨1, 5, [5, 6, 7], 2, .Active, 1⟩ (by decide) (by decide) (by decide)
  have h2 := C8_sign_execute_expiry_persist
    (⟨fun i => if i = 1 then some ⟨1, 5, [5, 6, 7], 2, .Active, 1⟩ else none,
      fun i => if i = 1 then
        some ⟨1, 1, .TreasuryWithdrawal, "w", 5, [5], 0, 1000, 87400, .Pending⟩
      else none, fun _ _ => none, 1, 1⟩ : MsState)
    1 6 2000 ⟨1, 1, .TreasuryWithdrawal, "w", 5, [5], 0, 1000, 87400, .Pending⟩
    ⟨1, 5, [5, 6, 7], 2, .Active, 1⟩ (by decide) (by decide) (by decide)
  have ha := h.1 (by decide)
  have hb := h2.2 (by decide) (by decide) (by decide)
  exact ⟨⟨ha.1, ha.2.1⟩, ⟨hb.1, hb.2⟩⟩

/-- C9. When no policy is stored for `(account, op_type)`, the default policy
`min_signatures = 1` governs: a live Pending operation with its single
auto-signature executes successfully, whatever `account.threshold` is. -/
theorem C9_default_policy_one_signature (s : MsState) (op_id now : Nat)
    (op : MultiSigOperation) (account : MultiSigAccount)
    (h1 : s.operations op_id = some op)
    (h2 : s.accounts op.account_id = some account)
    (hpol : s.policies account.id op.op_type = none)
    (hst : op.status = .Pending)
    (hexp : now ≤ op.expires_at)
    (hsig : op.signatures.length = 1) :
    (ms_execute_operation s op_id now).1 = .ok () ∧
    (ms_execute_operation s op_id now).2.operations op_id =
      some { op with status := .Executed } := by
  have hget : ms_get_operation_policy s account.id op.op_type =
      ⟨1, false, DEFAULT_TIMEOUT, false⟩ := by
    simp [ms_get_operation_policy, hpol]
  simp only [ms_execute_operation, h1, h2, hget]
  rw [if_neg (by simp [hst]), if_neg (Nat.not_lt.mpr hexp),
    if_neg (by simp [required_signatures, hsig]), if_neg (by simp)]
  exact ⟨rfl, by simp [store_operation]⟩

/-- Witness for C9: an account with threshold 3 and no stored policy executes
an operation carrying only the proposer's signature. -/
theorem C9_default_policy_one_signature_witness :
    (let account : MultiSigAccount := ⟨1, 5, [5, 6, 7], 3, .Active, 1⟩
     let op : MultiSigOperation :=
       ⟨1, 1, .GovernanceUpdate, "g", 6, [6], 0, 1000, 87400, .Pending⟩
     let s : MsState :=
       ⟨fun i => if i = 1 then some account else none,
        fun i => if i = 1 then some op else none, fun _ _ => none, 1, 1⟩
     (ms_execute_operation s 1 2000).1 = .ok () ∧
       (ms_execute_operation s 1 2000).2.operations 1 =
         some { op with status := .Executed }) := by
  exact C9_default_policy_one_signature
    (⟨fun i => if i = 1 then some ⟨1, 5, [5, 6, 7], 3, .Active, 1⟩ else none,
      fun i => if i = 1 then
        some ⟨1, 1, .GovernanceUpdate, "g", 6, [6], 0, 1000, 87400, .Pending⟩
      else none, fun _ _ => none, 1, 1⟩ : MsState)
    1 2000 ⟨1, 1, .GovernanceUpdate, "g", 6, [6], 0, 1000, 87400, .Pending⟩
    ⟨1, 5, [5, 6, 7], 3, .Active, 1⟩ (by decide) (by decide) (by decide)
    (by decide) (by decide) (by decide)

/-- The required-signature count ignores the account's status field. -/
theorem required_signatures_ignores_status (p : OperationPolicy)
    (a : MultiSigAccount) (st : AccountStatus) :
    required_signatures p { a with status := st } = required_signatures p a := by
  simp [required_signatures]

/-- Overwrite the `status` field of the account stored under `account_id`,
leaving every other component of the state alone. Freezing and unfreezing by
the owner change exactly this much of the state. -/
def set_account_status (s : MsState) (account_id : Nat) (st : AccountStatus) :
    MsState :=
  { s with accounts := fun i =>
      if i = account_id then (s.accounts i).map (fun a => { a with status := st })
      else s.accounts i }

/-- C10. The account status is never consulted after proposal time: signing,
executing and cancelling an existing operation return the same outcome and
leave the same operations store whether the account is Active or Frozen,
while a Frozen account rejects new proposals with error 2. -/
theorem C10_freeze_blocks_only_proposals (s : MsState)
    (account_id op_id signer caller now : Nat) (st : AccountStatus) :
    ((ms_sign_operation (set_account_status s account_id st) op_id signer now).1 =
        (ms_sign_operation s op_id signer now).1 ∧
      (ms_sign_operation (set_account_status s account_id st) op_id signer now).2.operations =
        (ms_sign_operation s op_id signer now).2.operations) ∧
    ((ms_execute_operation (set_account_status s account_id st) op_id now).1 =
        (ms_execute_operation s op_id now).1 ∧
      (ms_execute_operation (set_account_status s account_id st) op_id now).2.operations =
        (ms_execute_operation s op_id now).2.operations) ∧
    ((ms_cancel_operation (set_account_status s account_id st) op_id caller).1 =
        (ms_cancel_operation s op_id caller).1 ∧
      (ms_cancel_operation (set_account_status s account_id st) op_id caller).2.operations =
        (ms_cancel_operation s op_id caller).2.operations) ∧
    (∀ t d proposer a, s.accounts account_id = some a → proposer ∈ a.signers →
      (ms_propose_operation (set_account_status s account_id .Frozen)
        account_id t d proposer now).1 = .error 2) := by
  refine ⟨?_, ?_, ?_, ?_⟩
  · cases hop : s.operations op_id with
    | none => refine ⟨?_, ?_⟩ <;> simp [ms_sign_operation, set_account_status, hop]
    | some op =>
      by_cases haid : op.account_id = account_id
      · subst haid
        cases hacct : s.accounts op.account_id with
        | none =>
          refine ⟨?_, ?_⟩ <;>
            simp [ms_sign_operation, set_account_status, hop, hacct]
        | some a =>
          refine ⟨?_, ?_⟩ <;>
            · simp [ms_sign_operation, set_account_status, hop, hacct]
              try (split_ifs <;> rfl)
      · cases hacct : s.accounts op.account_id with
        | none =>
          refine ⟨?_, ?_⟩ <;>
            simp [ms_sign_operation, set_account_status, hop, hacct, haid]
        | some a =>
          refine ⟨?_, ?_⟩ <;>
            · simp [ms_sign_operation, set_account_status, hop, hacct, haid]
              try (split_ifs <;> rfl)
  · cases hop : s.operations op_id with
    | none =>
      refine ⟨?_, ?_⟩ <;> simp [ms_execute_operation, set_account_status, hop]
    | some op =>
      by_cases haid : op.account_id = account_id
      · subst haid
        cases hacct : s.accounts op.account_id with
        | none =>
          refine ⟨?_, ?_⟩ <;>
            simp [ms_execute_operation, set_account_status, hop, hacct]
        | some a =>
          refine ⟨?_, ?_⟩ <;>
            · simp [ms_execute_operation, ms_get_operation_policy,
                set_account_status, hop, hacct, required_signatures_ignores_status]
              try (split_ifs <;> rfl)
      · cases hacct : s.accounts op.account_id with
        | none =>
          refine ⟨?_, ?_⟩ <;>
            simp [ms_execute_operation, set_account_status, hop, hacct, haid]
        | some a =>
          refine ⟨?_, ?_⟩ <;>
            · simp [ms_execute_operation, ms_get_operation_policy,
                set_account_status, hop, hacct, haid,
                required_signatures_ignores_status]
              try (split_ifs <;> rfl)
  · cases hop : s.operations op_id with
    | none =>
      refine ⟨?_, ?_⟩ <;> simp [ms_cancel_operation, set_account_status, hop]
    | some op =>
      by_cases haid : op.account_id = account_id
      · subst haid
        cases hacct : s.accounts op.account_id with
        | none =>
          refine ⟨?_, ?_⟩ <;>
            simp [ms_cancel_operation, set_account_status, hop, hacct]
        | some a =>
          refine ⟨?_, ?_⟩ <;>
            · simp [ms_cancel_operation, set_account_status, hop, hacct]
              try (split_ifs <;> rfl)
      · cases hacct : s.accounts op.account_id with
        | none =>
          refine ⟨?_, ?_⟩ <;>
            simp [ms_cancel_operation, set_account_status, hop, hacct, haid]
        | some a =>
          refine ⟨?_, ?_⟩ <;>
            · simp [ms_cancel_operation, set_account_status, hop, hacct, haid]
              try (split_ifs <;> rfl)
  · intro t d proposer a ha hin
    simp [ms_propose_operation, set_account_status, ha, hin]

/-- Witness for C10: on a concrete state the sign outcome coincides for the
Frozen and Active variants of the account, and proposing on the Frozen
account fails with error 2. -/
theorem C10_freeze_blocks_only_proposals_witness :
    (let account : MultiSigAccount := ⟨1, 5, [5, 6, 7], 2, .Active, 1⟩
     let op : MultiSigOperation :=
       ⟨1, 1, .TreasuryWithdrawal, "w", 5, [5], 0, 1000, 87400, .Pending⟩
     let s : MsState :=
       ⟨fun i => if i = 1 then some account else none,
        fun i => if i = 1 then some op else none, fun _ _ => none, 1, 1⟩
     (ms_sign_operation (set_account_status s 1 .Frozen) 1 6 2000).1 =
        (ms_sign_operation s 1 6 2000).1 ∧
     (ms_propose_operation (set_account_status s 1 .Frozen) 1
        .TreasuryWithdrawal "x" 6 2000).1 = .error 2) := by
  have h := C10_freeze_blocks_only_proposals
    (⟨fun i => if i = 1 then some ⟨1, 5, [5, 6, 7], 2, .Active, 1⟩ else none,
      fun i => if i = 1 then
        some ⟨1, 1, .TreasuryWithdrawal, "w", 5, [5], 0, 1000, 87400, .Pending⟩
      else none, fun _ _ => none, 1, 1⟩ : MsState)
    1 1 6 6 2000 .Frozen
  exact ⟨h.1.1, h.2.2.2 .TreasuryWithdrawal "x" 6 ⟨1, 5, [5, 6, 7], 2, .Active, 1⟩
    (by decide) (by decide)⟩

/-- A freshly registered account satisfies THRESHOLD-SAFE: `register` rejects
any threshold outside `[⌊n/2⌋+1, n]` and the owner is auto-added. -/
theorem register_account_thresholdSafe (s : MsState) (owner : Nat)
    (signers : List Nat) (threshold n : Nat)
    (hok : (ms_register_account s owner signers threshold).1 = .ok n) :
    ∀ a, (ms_register_account s owner signers threshold).2.accounts n = some a →
      thresholdSafe a := by
  intro a ha
  simp only [ms_register_account] at hok ha
  set L := if owner ∈ signers then signers else signers ++ [owner] with hL
  split_ifs at hok ha with h
  push_neg at h
  simp at hok
  subst hok
  simp [store_account] at ha
  subst ha
  refine ⟨h.1, h.2, ?_⟩
  have hlen : 0 < L.length := by omega
  exact List.length_pos.mp hlen

/-- `ms_update_threshold` re-validates the new threshold, so any account it
stores satisfies THRESHOLD-SAFE. -/
theorem update_threshold_thresholdSafe (s : MsState) (account_id new_threshold caller : Nat)
    (hok : (ms_update_threshold s account_id new_threshold caller).1 = .ok ()) :
    ∀ b, (ms_update_threshold s account_id new_threshold caller).2.accounts account_id =
      some b → thresholdSafe b := by
  intro b hb
  cases ha : s.accounts account_id with
  | none => simp [ms_update_threshold, ha] at hok
  | some a =>
    simp only [ms_update_threshold, ha] at hok hb
    split_ifs at hok hb with h1 h2
    push_neg at h2
    simp [store_account] at hb
    subst hb
    refine ⟨h2.1, h2.2, ?_⟩
    have hlen : 0 < a.signers.length := by omega
    exact List.length_pos.mp hlen

/-- `ms_remove_signer` preserves THRESHOLD-SAFE: the found branch re-checks
non-emptiness and the supplied threshold, the absent branch changes nothing. -/
theorem remove_signer_thresholdSafe (s : MsState)
    (account_id signer caller new_threshold : Nat) (a : MultiSigAccount)
    (ha : s.accounts account_id = some a) (hsafe : thresholdSafe a)
    (hok : (ms_remove_signer s account_id signer caller new_threshold).1 = .ok ()) :
    ∀ b, (ms_remove_signer s account_id signer caller new_threshold).2.accounts
      account_id = some b → thresholdSafe b := by
  intro b hb
  simp only [ms_remove_signer, ha] at hok hb
  split_ifs at hok hb with h1
  cases hidx : a.signers.indexOf? signer with
  | some idx =>
    simp only [hidx] at hok hb
    split_ifs at hok hb with h2 h3
    push_neg at h3
    simp [store_account] at hb
    subst hb
    refine ⟨h3.1, h3.2, ?_⟩
    simpa using h2
  | none =>
    simp only [hidx] at hb
    rw [ha] at hb
    cases hb
    exact hsafe

/-- `ms_rotate_signer` preserves THRESHOLD-SAFE: it replaces one signer in
place, leaving the signer count and the threshold unchanged. -/
theorem rotate_signer_thresholdSafe (s : MsState)
    (account_id old_signer new_signer caller : Nat) (a : MultiSigAccount)
    (ha : s.accounts account_id = some a) (hsafe : thresholdSafe a)
    (hok : (ms_rotate_signer s account_id old_signer new_signer caller).1 = .ok ()) :
    ∀ b, (ms_rotate_signer s account_id old_signer new_signer caller).2.accounts
      account_id = some b → thresholdSafe b := by
  intro b hb
  simp only [ms_rotate_signer, ha] at hok hb
  split_ifs at hok hb with h1 h2 h3
  all_goals
    cases hidx : a.signers.indexOf? old_signer with
    | some idx =>
      simp only [hidx] at hok hb
      simp [store_account] at hb
      subst hb
      obtain ⟨hs1, hs2, hs3⟩ := hsafe
      refine ⟨by simpa using hs1, by simpa using hs2, ?_⟩
      have hlen : 0 < a.signers.length := List.length_pos.mpr hs3
      have hlen2 : 0 < (a.signers.set idx new_signer).length := by simpa using hlen
      exact List.length_pos.mp hlen2
    | none => simp [hidx] at hok

/-- `ms_add_signer` never removes signers and never touches the threshold, so
the upper bound and non-emptiness survive — but it does not re-check the
lower bound. -/
theorem add_signer_upper_bound (s : MsState) (account_id new_signer caller : Nat)
    (a : MultiSigAccount) (ha : s.accounts account_id = some a)
    (hsafe : thresholdSafe a)
    (hok : (ms_add_signer s account_id new_signer caller).1 = .ok ()) :
    ∀ b, (ms_add_signer s account_id new_signer caller).2.accounts account_id =
      some b → b.threshold ≤ b.signers.length ∧ b.signers ≠ [] := by
  intro b hb
  simp only [ms_add_signer, ha] at hok hb
  split_ifs at hok hb with h1 h2
  · rw [ha] at hb
    cases hb
    exact ⟨hsafe.2.1, hsafe.2.2⟩
  · simp [store_account] at hb
    subst hb
    obtain ⟨-, hs2, hs3⟩ := hsafe
    constructor
    · simp only [List.length_append, List.length_cons, List.length_nil]
      omega
    · simp

/-- C3 counterexample. A singleton account registered with threshold 1 is
THRESHOLD-SAFE, but `ms_add_signer` accepts a second signer without raising
the threshold, leaving `threshold = 1 < ⌊2/2⌋+1 = 2`: the claimed invariant
is not maintained by `add_signer`. -/
theorem C3_counterexample :
    (ms_register_account emptyMs 5 [] 1).1 = .ok 1 ∧
    (ms_register_account emptyMs 5 [] 1).2.accounts 1 =
      some ⟨1, 5, [5], 1, .Active, 0⟩ ∧
    thresholdSafe ⟨1, 5, [5], 1, .Active, 0⟩ ∧
    (ms_add_signer (ms_register_account emptyMs 5 [] 1).2 1 6 5).1 = .ok () ∧
    (ms_add_signer (ms_register_account emptyMs 5 [] 1).2 1 6 5).2.accounts 1 =
      some ⟨1, 5, [5, 6], 1, .Active, 0⟩ ∧
    ¬ thresholdSafe ⟨1, 5, [5, 6], 1, .Active, 0⟩ := by
  refine ⟨by decide, by decide, by decide, by decide, by decide, by decide⟩

/-- C3 (amended). THRESHOLD-SAFE (with SIGNERS-NONEMPTY) holds after
`register_account` and is preserved by `remove_signer`, `rotate_signer` and
`update_threshold`; `add_signer` preserves only `threshold ≤ |signers|` and
non-emptiness, and can break the `⌊|signers|/2⌋+1` lower bound. -/
theorem C3_threshold_safe_amended :
    (∀ s owner signers threshold n,
      (ms_register_account s owner signers threshold).1 = .ok n →
      ∀ a, (ms_register_account s owner signers threshold).2.accounts n = some a →
        thresholdSafe a) ∧
    (∀ s account_id new_threshold caller,
      (ms_update_threshold s account_id new_threshold caller).1 = .ok () →
      ∀ b, (ms_update_threshold s account_id new_threshold caller).2.accounts
        account_id = some b → thresholdSafe b) ∧
    (∀ s account_id signer caller new_threshold a,
      s.accounts account_id = some a → thresholdSafe a →
      (ms_remove_signer s account_id signer caller new_threshold).1 = .ok () →
      ∀ b, (ms_remove_signer s account_id signer caller new_threshold).2.accounts
        account_id = some b → thresholdSafe b) ∧
    (∀ s account_id old_signer new_signer caller a,
      s.accounts account_id = some a → thresholdSafe a →
      (ms_rotate_signer s account_id old_signer new_signer caller).1 = .ok () →
      ∀ b, (ms_rotate_signer s account_id old_signer new_signer caller).2.accounts
        account_id = some b → thresholdSafe b) ∧
    (∀ s account_id new_signer caller a,
      s.accounts account_id = some a → thresholdSafe a →
      (ms_add_signer s account_id new_signer caller).1 = .ok () →
      ∀ b, (ms_add_signer s account_id new_signer caller).2.accounts account_id =
        some b → b.threshold ≤ b.signers.length ∧ b.signers ≠ []) := by
  refine ⟨?_, ?_, ?_, ?_, ?_⟩
  · intro s owner signers threshold n hok
    exact register_account_thresholdSafe s owner signers threshold n hok
  · intro s account_id new_threshold caller hok
    exact update_threshold_thresholdSafe s account_id new_threshold caller hok
  · intro s account_id signer caller new_threshold a ha hsafe hok
    exact remove_signer_thresholdSafe s account_id signer caller new_threshold a
      ha hsafe hok
  · intro s account_id old_signer new_signer caller a ha hsafe hok
    exact rotate_signer_thresholdSafe s account_id old_signer new_signer caller a
      ha hsafe hok
  · intro s account_id new_signer caller a ha hsafe hok
    exact add_signer_upper_bound s account_id new_signer caller a ha hsafe hok

/-- Witness for C3 (amended): registering a three-signer account with
threshold 2 yields a THRESHOLD-SAFE account, and updating the threshold to 3
keeps it safe. -/
theorem C3_threshold_safe_amended_witness :
    thresholdSafe ⟨1, 5, [5, 6, 7], 2, .Active, 0⟩ ∧
    thresholdSafe ⟨1, 5, [5, 6, 7], 3, .Active, 1⟩ := by
  have h1 := C3_threshold_safe_amended.1 emptyMs 5 [5, 6, 7] 2 1 (by decide)
    ⟨1, 5, [5, 6, 7], 2, .Active, 0⟩ (by decide)
  have h2 := C3_threshold_safe_amended.2.1
    (ms_register_account emptyMs 5 [5, 6, 7] 2).2 1 3 5 (by decide)
    ⟨1, 5, [5, 6, 7], 3, .Active, 1⟩ (by decide)
  exact ⟨h1, h2⟩

/-- The sweep scan never rewrites an operation that is not Pending. -/
theorem sweep_foldl_preserves_nonpending (accid now op_id : Nat)
    (op : MultiSigOperation) (hterm : op.status ≠ .Pending) :
    ∀ (l : List Nat) (acc : Nat × MsState), acc.2.operations op_id = some op →
      ((l.foldl (sweepStep accid now) acc).2.operations op_id = some op) := by
  intro l
  induction l with
  | nil => intro acc h; exact h
  | cons j t ih =>
    intro acc h
    apply ih
    cases hj : acc.2.operations j with
    | none =>
      simp only [sweepStep, hj]
      exact h
    | some opj =>
      simp only [sweepStep, hj]
      split_ifs with hc
      · simp only [store_operation]
        by_cases hje : op_id = j
        · subst hje
          rw [h] at hj
          cases hj
          exact absurd hc.2.1 hterm
        · simpa [hje] using h
      · exact h

/-- C4 counterexample. An operation driven to `Executed` through the normal
propose/sign/execute flow is a terminal operation, yet
`ms_emergency_expire_operation` rewrites its status to `Expired` and
`ms_emergency_extend_timeout` rewrites its `expires_at`: the emergency
entry points do not freeze terminal states. -/
theorem C4_counterexample :
    (let s1 := (ms_register_account emptyMs 5 [5, 6] 2).2
     let s2 := (ms_propose_operation s1 1 .TreasuryWithdrawal "t" 5 1000).2
     let s3 := (ms_sign_operation s2 1 6 1000).2
     let s4 := (ms_execute_operation s3 1 1000).2
     (ms_execute_operation s3 1 1000).1 = .ok () ∧
     (s4.operations 1).map (fun o => o.status) = some .Executed ∧
     (ms_emergency_expire_operation s4 1 5).1 = .ok () ∧
     ((ms_emergency_expire_operation s4 1 5).2.operations 1).map
       (fun o => o.status) = some .Expired ∧
     (ms_emergency_extend_timeout s4 1 86400 5 400000).1 = .ok () ∧
     ((ms_emergency_extend_timeout s4 1 86400 5 400000).2.operations 1).map
       (fun o => o.expires_at) = some 486400 ∧
     (s4.operations 1).map (fun o => o.expires_at) = some 173800) := by
  refine ⟨by decide, by decide, by decide, by decide, by decide, by decide,
    by decide⟩

/-- C4 (amended). Terminal operation statuses are frozen under the ordinary
engine entry points: for an operation whose status is not Pending, sign,
execute, cancel, check_and_expire and sweep_expired leave the stored
operation — status and `expires_at` included — untouched. The owner-gated
emergency entry points are exempt: they overwrite status or `expires_at`
regardless of the current status. -/
theorem C4_terminal_status_frozen (s : MsState) (op_id : Nat)
    (op : MultiSigOperation) (h1 : s.operations op_id = some op)
    (hterm : op.status ≠ .Pending) :
    (∀ signer now,
      (ms_sign_operation s op_id signer now).2.operations op_id = some op) ∧
    (∀ now,
      (ms_execute_operation s op_id now).2.operations op_id = some op) ∧
    (∀ caller,
      (ms_cancel_operation s op_id caller).2.operations op_id = some op) ∧
    (∀ now,
      (ms_check_and_expire s op_id now).2.operations op_id = some op) ∧
    (∀ account_id now,
      (ms_sweep_expired_operations s account_id now).2.operations op_id =
        some op) := by
  refine ⟨?_, ?_, ?_, ?_, ?_⟩
  · intro signer now
    cases hacct : s.accounts op.account_id with
    | none => simp [ms_sign_operation, h1, hacct]
    | some account => simp [ms_sign_operation, h1, hacct, hterm]
  · intro now
    cases hacct : s.accounts op.account_id with
    | none => simp [ms_execute_operation, h1, hacct]
    | some account => simp [ms_execute_operation, h1, hacct, hterm]
  · intro caller
    cases hacct : s.accounts op.account_id with
    | none => simp [ms_cancel_operation, h1, hacct]
    | some account =>
      simp only [ms_cancel_operation, h1, hacct]
      split_ifs with hc1
      · exact h1
      · exact h1
  · intro now
    simp [ms_check_and_expire, h1, hterm]
  · intro account_id now
    exact sweep_foldl_preserves_nonpending account_id now op_id op hterm _ (0, s) h1

/-- Witness for C4 (amended): a concrete Cancelled operation survives sign,
execute, cancel, check_and_expire and sweep unchanged. -/
theorem C4_terminal_status_frozen_witness :
    (let op : MultiSigOperation :=
       ⟨1, 1, .TreasuryWithdrawal, "w", 5, [5], 0, 1000, 87400, .Cancelled⟩
     let s : MsState :=
       ⟨fun i => if i = 1 then some ⟨1, 5, [5, 6, 7], 2, .Active, 1⟩ else none,
        fun i => if i = 1 then some op else none, fun _ _ => none, 1, 1⟩
     (ms_sign_operation s 1 6 2000).2.operations 1 = some op ∧
     (ms_execute_operation s 1 500000).2.operations 1 = some op ∧
     (ms_cancel_operation s 1 5).2.operations 1 = some op ∧
     (ms_check_and_expire s 1 500000).2.operations 1 = some op ∧
     (ms_sweep_expired_operations s 1 500000).2.operations 1 = some op) := by
  have h := C4_terminal_status_frozen
    (⟨fun i => if i = 1 then some ⟨1, 5, [5, 6, 7], 2, .Active, 1⟩ else none,
      fun i => if i = 1 then
        some ⟨1, 1, .TreasuryWithdrawal, "w", 5, [5], 0, 1000, 87400, .Cancelled⟩
      else none, fun _ _ => none, 1, 1⟩ : MsState)
    1 ⟨1, 1, .TreasuryWithdrawal, "w", 5, [5], 0, 1000, 87400, .Cancelled⟩
    (by decide) (by decide)
  exact ⟨h.1 6 2000, h.2.1 500000, h.2.2.1 5, h.2.2.2.1 500000, h.2.2.2.2 1 500000⟩

/-- Below the `u64` wrap point, the nonce increment is strictly increasing. -/
theorem nonce_increment_strict (n : Nat) (h : n + 1 < U64MOD) :
    n < (n + 1) % U64MOD := by
  rw [Nat.mod_eq_of_lt h]
  omega

/-- C6 counterexample. `ms_freeze_account` is a successful account mutation
that leaves `account.nonce` unchanged, so the nonce does not strictly
increase across every successful mutation operation. -/
theorem C6_counterexample :
    (let s : MsState :=
       ⟨fun i => if i = 1 then some ⟨1, 5, [5, 6, 7], 2, .Active, 0⟩ else none,
        fun _ => none, fun _ _ => none, 1, 0⟩
     (ms_freeze_account s 1 5).1 = .ok () ∧
     ((ms_freeze_account s 1 5).2.accounts 1).map (fun a => a.nonce) = some 0 ∧
     (ms_add_signer s 1 8 5).1 = .ok () ∧
     ((ms_add_signer s 1 8 5).2.accounts 1).map (fun a => a.nonce) = some 0) := by
  refine ⟨by decide, by decide, by decide, by decide⟩

/-- C6 (amended). `account.nonce` is bumped by exactly one (mod 2^64) by a
successful `propose_operation` — which snapshots the pre-increment nonce into
`op.nonce` — and by successful `update_threshold`, `remove_signer` (when the
signer was present) and `rotate_signer`; below the wrap point the bump is a
strict increase. `freeze_account`, `unfreeze_account` and `add_signer`
succeed without changing the nonce. -/
theorem C6_nonce_monotonicity (s : MsState) (account_id : Nat)
    (a : MultiSigAccount) (ha : s.accounts account_id = some a) :
    (∀ t d proposer now op_id, a.id = account_id →
      (ms_propose_operation s account_id t d proposer now).1 = .ok op_id →
      (((ms_propose_operation s account_id t d proposer now).2.accounts
          account_id).map (fun x => x.nonce) = some ((a.nonce + 1) % U64MOD) ∧
       ((ms_propose_operation s account_id t d proposer now).2.operations
          op_id).map (fun o => o.nonce) = some a.nonce ∧
       (a.nonce + 1 < U64MOD → a.nonce < (a.nonce + 1) % U64MOD))) ∧
    (∀ new_threshold caller,
      (ms_update_threshold s account_id new_threshold caller).1 = .ok () →
      ((ms_update_threshold s account_id new_threshold caller).2.accounts
        account_id).map (fun x => x.nonce) = some ((a.nonce + 1) % U64MOD)) ∧
    (∀ signer caller new_threshold idx,
      a.signers.indexOf? signer = some idx →
      (ms_remove_signer s account_id signer caller new_threshold).1 = .ok () →
      ((ms_remove_signer s account_id signer caller new_threshold).2.accounts
        account_id).map (fun x => x.nonce) = some ((a.nonce + 1) % U64MOD)) ∧
    (∀ old_signer new_signer caller,
      (ms_rotate_signer s account_id old_signer new_signer caller).1 = .ok () →
      ((ms_rotate_signer s account_id old_signer new_signer caller).2.accounts
        account_id).map (fun x => x.nonce) = some ((a.nonce + 1) % U64MOD)) ∧
    ((ms_freeze_account s account_id a.owner).1 = .ok () →
      (ms_freeze_account s account_id a.owner).2.accounts account_id =
        some { a with status := .Frozen }) ∧
    ((ms_unfreeze_account s account_id a.owner).1 = .ok () →
      (ms_unfreeze_account s account_id a.owner).2.accounts account_id =
        some { a with status := .Active }) ∧
    (∀ new_signer caller,
      (ms_add_signer s account_id new_signer caller).1 = .ok () →
      ((ms_add_signer s account_id new_signer caller).2.accounts
        account_id).map (fun x => x.nonce) = some a.nonce) := by
  refine ⟨?_, ?_, ?_, ?_, ?_, ?_, ?_⟩
  · intro t d proposer now op_id hid hok
    simp only [ms_propose_operation, ha] at hok ⊢
    split_ifs at hok ⊢ with h
    simp only [Except.ok.injEq] at hok
    subst hok
    refine ⟨?_, ?_, nonce_increment_strict a.nonce⟩
    · simp [store_operation, store_account, hid]
    · simp [store_operation]
  · intro new_threshold caller hok
    simp only [ms_update_threshold, ha] at hok ⊢
    split_ifs at hok ⊢ with h1 h2
    simp [store_account]
  · intro signer caller new_threshold idx hidx hok
    simp only [ms_remove_signer, ha, hidx] at hok ⊢
    split_ifs at hok ⊢ with h1 h2 h3
    simp [store_account]
  · intro old_signer new_signer caller hok
    simp only [ms_rotate_signer, ha] at hok ⊢
    split_ifs at hok ⊢ with h1 h2 h3
    all_goals
      cases hidx : a.signers.indexOf? old_signer with
      | some idx =>
        simp only [hidx] at hok ⊢
        simp [store_account]
      | none => simp [hidx] at hok
  · intro hok
    simp only [ms_freeze_account, ha] at hok ⊢
    split_ifs at hok ⊢ with h1
    simp [store_account]
  · intro hok
    simp only [ms_unfreeze_account, ha] at hok ⊢
    split_ifs at hok ⊢ with h1
    simp [store_account]
  · intro new_signer caller hok
    simp only [ms_add_signer, ha] at hok ⊢
    split_ifs at hok ⊢ with h1 h2
    · simp [ha]
    · simp [store_account]

/-- Witness for C6 (amended): proposing on a fresh account moves the nonce
from 0 to 1 and snapshots 0 into the operation; freezing keeps it at 1. -/
theorem C6_nonce_monotonicity_witness :
    (let s : MsState :=
       ⟨fun i => if i = 1 then some ⟨1, 5, [5, 6, 7], 2, .Active, 0⟩ else none,
        fun _ => none, fun _ _ => none, 1, 0⟩
     ((ms_propose_operation s 1 .EmergencyAction "e" 5 1000).2.accounts 1).map
       (fun x => x.nonce) = some 1 ∧
     ((ms_propose_operation s 1 .EmergencyAction "e" 5 1000).2.operations 1).map
       (fun o => o.nonce) = some 0) := by
  have h := (C6_nonce_monotonicity
    (⟨fun i => if i = 1 then some ⟨1, 5, [5, 6, 7], 2, .Active, 0⟩ else none,
      fun _ => none, fun _ _ => none, 1, 0⟩ : MsState)
    1 ⟨1, 5, [5, 6, 7], 2, .Active, 0⟩ (by decide)).1 .EmergencyAction "e" 5 1000 1
    (by decide) (by decide)
  exact ⟨h.1, h.2.1⟩

/-- A Passed TreasurySpend proposal inside its execution window, sitting in a
store that holds no multisig state whatsoever. -/
def c1Proposal : Proposal :=
  ⟨1, 1, 5, .TreasurySpend, "t", "d", .TreasurySpend, 10, 50, .Passed,
   some 100, none, 15, 0, 0⟩

/-- Governance store holding only `c1Proposal`. -/
def c1State : GovState := ⟨fun i => if i = 1 then some c1Proposal else none, []⟩

/-- C1 counterexample. `execute_proposal` executes a Passed TreasurySpend
proposal and reports success although no multisig operation exists anywhere —
`ms_require_executed_operation` fails on every id of the empty multisig store
and is never consulted by `execute_proposal`, which does not read multisig
state at all. -/
theorem C1_counterexample :
    (execute_proposal (fun s _ => s) c1State 1 200).1 = .success true ∧
    ((execute_proposal (fun s _ => s) c1State 1 200).2.proposals 1).map
      (fun p => p.status) = some .Executed ∧
    emptyMs.operations 1 = none ∧
    ms_require_executed_operation emptyMs 1 .GovernanceUpdate = .error 3 := by
  refine ⟨by decide, by decide, by decide, by decide⟩

/-- C1 (amended). `execute_proposal` itself imposes no multisig precondition:
any Passed TreasurySpend or RuleChange proposal with a matching payload and an
open window executes successfully, whatever the multisig state; the gate
`ms_require_executed_operation` (not called by `execute_proposal`) succeeds
exactly when the named operation exists with status `Executed` and the
expected `OperationType`. -/
theorem C1_execute_without_multisig_gate :
    (∀ finalize s pid now (p : Proposal), s.proposals pid = some p →
      p.status = .Passed →
      ((p.proposal_type = .TreasurySpend ∧ p.execution_payload = .TreasurySpend) ∨
       (p.proposal_type = .RuleChange ∧ p.execution_payload = .RuleChange)) →
      (∀ t, p.passed_at = some t →
        now ≤ (t + EXECUTION_DEADLINE_SECONDS) % U64MOD) →
      (execute_proposal finalize s pid now).1 = .success true ∧
      (execute_proposal finalize s pid now).2.proposals p.id =
        some { p with status := .Executed, executed_at := some now }) ∧
    (∀ s op_id expected,
      ms_require_executed_operation s op_id expected = .ok () ↔
      ∃ op, s.operations op_id = some op ∧ op.status = .Executed ∧
        op.op_type = expected) := by
  constructor
  · intro finalize s pid now p hp hst htype hwin
    have hsucc : payloadSuccess p = true := by
      rcases htype with ⟨h1, h2⟩ | ⟨h1, h2⟩ <;> simp [payloadSuccess, h1, h2]
    simp only [execute_proposal, hp]
    rw [if_neg (by simp [hst]), if_neg (by simp [hst])]
    cases hpa : p.passed_at with
    | some t =>
      simp only [executePassed, hpa]
      rw [if_neg (Nat.not_lt.mpr (hwin t hpa))]
      simp [executeDispatch, hsucc, store_proposal]
      exact hpa
    | none =>
      simp only [executePassed, hpa]
      simp [executeDispatch, hsucc, store_proposal]
      exact hpa
  · intro s op_id expected
    cases hop : s.operations op_id with
    | none => simp [ms_require_executed_operation, hop]
    | some op =>
      simp only [ms_require_executed_operation, hop]
      split_ifs with h1 h2
      · simp [h1]
      · simp [h2]
      · simp [not_ne_iff.mp h1, not_ne_iff.mp h2]

/-- Witness for C1 (amended): the TreasurySpend execution part applied to the
concrete store `c1State`, and the gate characterization applied to a store
holding one Executed GovernanceUpdate operation. -/
theorem C1_execute_without_multisig_gate_witness :
    ((execute_proposal (fun s _ => s) c1State 1 200).1 = .success true ∧
     (execute_proposal (fun s _ => s) c1State 1 200).2.proposals 1 =
       some { c1Proposal with status := .Executed, executed_at := some 200 }) ∧
    ms_require_executed_operation
      (⟨fun _ => none,
        fun i => if i = 1 then
          some ⟨1, 1, .GovernanceUpdate, "g", 5, [5, 6], 0, 10, 90000, .Executed⟩
        else none, fun _ _ => none, 1, 1⟩ : MsState) 1 .GovernanceUpdate =
      .ok () := by
  constructor
  · exact C1_execute_without_multisig_gate.1 (fun s _ => s) c1State 1 200
      c1Proposal (by decide) (by decide) (by decide)
      (by intro t ht; simp [c1Proposal] at ht; subst ht; decide)
  · exact (C1_execute_without_multisig_gate.2
      (⟨fun _ => none,
        fun i => if i = 1 then
          some ⟨1, 1, .GovernanceUpdate, "g", 5, [5, 6], 0, 10, 90000, .Executed⟩
        else none, fun _ _ => none, 1, 1⟩ : MsState) 1 .GovernanceUpdate).mpr
      ⟨⟨1, 1, .GovernanceUpdate, "g", 5, [5, 6], 0, 10, 90000, .Executed⟩,
        by decide, by decide, by decide⟩

/-- A Passed AddMember proposal with a matching AddMember payload, inside its
execution window. -/
def c2Proposal : Proposal :=
  ⟨1, 1, 5, .AddMember, "a", "d", .AddMember 42 .Member, 10, 50, .Passed,
   some 100, none, 15, 0, 0⟩

/-- Governance store holding only `c2Proposal`. -/
def c2State : GovState := ⟨fun i => if i = 1 then some c2Proposal else none, []⟩

/-- C2. Evaluating `execute_proposal` at a Passed AddMember proposal within
the window: the payload dispatch has no AddMember arm (`_ => false`), so the
call returns `success = false`, leaves the proposal Passed with no
`executed_at`, and emits `proposal_executed{success = false}` — contradicting
the specified (and repo-tested) behavior of applying the membership change
and marking the proposal Executed. -/
theorem C2_addmember_execution_returns_false :
    (execute_proposal (fun s _ => s) c2State 1 200).1 = .success false ∧
    (execute_proposal (fun s _ => s) c2State 1 200).2.proposals 1 =
      some c2Proposal ∧
    (execute_proposal (fun s _ => s) c2State 1 200).2.events = [(1, false)] := by
  refine ⟨by decide, by decide, by decide⟩

/-- C7. A Passed proposal whose `passed_at` lies more than three days in the
past is not executed: `execute_proposal` stores it as Expired and fails with
the `execution window expired` panic. -/
theorem C7_execution_window_expiry (finalize : GovState → Nat → GovState)
    (s : GovState) (pid now t : Nat) (p : Proposal)
    (hp : s.proposals pid = some p) (hst : p.status = .Passed)
    (hpa : p.passed_at = some t)
    (hbound : t + EXECUTION_DEADLINE_SECONDS < U64MOD)
    (hnow : now > t + EXECUTION_DEADLINE_SECONDS) :
    (execute_proposal finalize s pid now).1 =
      .panicked "execution window expired" ∧
    (execute_proposal finalize s pid now).2.proposals p.id =
      some { p with status := .Expired } := by
  simp only [execute_proposal, hp]
  rw [if_neg (by simp [hst]), if_neg (by simp [hst])]
  simp only [executePassed, hpa]
  rw [if_pos (by rw [Nat.mod_eq_of_lt hbound]; exact hnow)]
  exact ⟨rfl, by simp [store_proposal]⟩
  

/-- Witness for C7: executing `c1Proposal` (passed at 100) at `now = 600000`
— far past the 259200-second window — marks it Expired and panics. -/
theorem C7_execution_window_expiry_witness :
    (execute_proposal (fun s _ => s) c1State 1 600000).1 =
      .panicked "execution window expired" ∧
    (execute_proposal (fun s _ => s) c1State 1 600000).2.proposals 1 =
      some { c1Proposal with status := .Expired } := by
  exact C7_execution_window_expiry (fun s _ => s) c1State 1 600000 100
    c1Proposal (by decide) (by decide) (by decide) (by decide) (by decide)
